import Mathlib

/-!
Shallow embedding of the stamp presentation controller
(src/app/components/stampCard.tsx) and proofs about its data lifecycle,
offer sorting and selection, content rendering, view state machine and
clipboard notifier.
-/

namespace StampCard

/-- An Offer ("dispenser") as used by the component: source address,
unit rate in BTC (a decimal number, modelled as a rational), remaining
and total quantities. Mirrors the `Dispenser` shape consumed at lines
138-140 and 355-386 of stampCard.tsx. -/
structure Dispenser where
  source : String
  btcrate : ℚ
  give_remaining : ℕ
  escrow_quantity : ℕ
deriving DecidableEq

/-- The `stamp` part of the fetched record: fields the component reads
(`cpid`, `stamp_mimetype`, `stamp_base64`, `stamp_url`). The mimetype is
a string per its unguarded uses at lines 171 and 207; `stamp_url` is a
string whose JS-falsy empty value triggers the placeholder at line 226. -/
structure StampInfo where
  cpid : String
  stamp_mimetype : String
  stamp_base64 : String
  stamp_url : String
deriving DecidableEq

/-- The fetched record (`StampInfoResponse.data`): a stamp plus its
dispenser list. -/
structure StampData where
  stamp : StampInfo
  dispensers : List Dispenser
deriving DecidableEq

/-- A toast notification as issued by `handleCopyAddress` (lines 146-151):
fixed title/description, fixed duration, closable. -/
structure Toast where
  title : String
  description : String
  duration : ℕ
  isClosable : Bool
deriving DecidableEq

/-- The toast emitted on every copy: `PepeToast` with duration 3000 ms. -/
def pepeToast : Toast :=
  { title := "Pepe Says", description := "Successfully copied, bro",
    duration := 3000, isClosable := true }

/-! ### Base64 decoding (the browser builtin `atob`, line 172)

`atob` implements forgiving-base64: ASCII whitespace is stripped, up to
two trailing padding characters are removed when the length is a
multiple of four, and decoding fails (the builtin throws
InvalidCharacterError) when the remaining length is congruent 1 mod 4
or any character is outside the base64 alphabet. -/

/-- Value of one base64 alphabet character, `none` outside the alphabet. -/
def b64Val (c : Char) : Option ℕ :=
  if 'A' ≤ c ∧ c ≤ 'Z' then some (c.toNat - 65)
  else if 'a' ≤ c ∧ c ≤ 'z' then some (c.toNat - 97 + 26)
  else if '0' ≤ c ∧ c ≤ '9' then some (c.toNat - 48 + 52)
  else if c = '+' then some 62
  else if c = '/' then some 63
  else none

/-- Repack a list of 6-bit values into 8-bit bytes, dropping the
incomplete trailing bits of a final 2- or 3-sextet group. -/
def sextetsToBytes : List ℕ → List ℕ
  | a :: b :: c :: d :: rest =>
      (a * 4 + b / 16) :: ((b % 16) * 16 + c / 4) :: ((c % 4) * 64 + d) ::
        sextetsToBytes rest
  | [a, b] => [a * 4 + b / 16]
  | [a, b, c] => [a * 4 + b / 16, (b % 16) * 16 + c / 4]
  | _ => []

/-- ASCII whitespace stripped by forgiving-base64. -/
def isB64Whitespace (c : Char) : Bool :=
  c = ' ' ∨ c = '\t' ∨ c = '\n' ∨ c = '\x0c' ∨ c = '\x0d'

/-- The browser `atob`: decodes a forgiving-base64 string to a byte
string, or fails (`none`, the InvalidCharacterError case). -/
def atob (input : String) : Option String :=
  let s0 := input.toList.filter (fun c => ¬ isB64Whitespace c)
  let s :=
    if s0.length % 4 = 0 then
      if s0.reverse.take 2 = ['=', '='] then s0.dropLast.dropLast
      else if s0.reverse.take 1 = ['='] then s0.dropLast
      else s0
    else s0
  if s.length % 4 = 1 then none
  else
    match s.mapM b64Val with
    | none => none
    | some vals => some ⟨(sextetsToBytes vals).map Char.ofNat⟩

/-! ### Rendering (renderStampContent, lines 168-239) -/

/-- `data:` URL construction (convertBase64ToImage, lines 59-61). -/
def convertBase64ToImage (base64 : String) (mimeType : String) : String :=
  "data:" ++ mimeType ++ ";base64," ++ base64

/-- The style block prepended to HTML stamp content (lines 173-180). -/
def styleContent : String :=
  "\n                <style>\n                    body \x7b\n                        margin: 0;\n                        overflow: hidden;\n                    \x7d\n                </style>\n            "

/-- The sandbox attribute of the stamp iframe (line 197), as its list of
whitespace-separated tokens exactly as the HTML sandbox attribute
parses it. The literal attribute string is
"allow-scripts allow-same-origin  allow-forms allow-popups
allow-orientation-lock allow-pointer-lock allow-presentation
allow-top-navigation allow-top-navigation-by-user-activation". -/
def sandboxTokens : List String :=
  ["allow-scripts", "allow-same-origin", "allow-forms", "allow-popups",
   "allow-orientation-lock", "allow-pointer-lock", "allow-presentation",
   "allow-top-navigation", "allow-top-navigation-by-user-activation"]

/-- What `renderStampContent` produces: the loading skeleton, a
sandboxed iframe with srcDoc content, an inline image from a data URL,
or the fallback image element. -/
inductive RenderResult where
  | skeleton : RenderResult
  | htmlFrame (srcDoc : String) (sandbox : List String) : RenderResult
  | image (src : String) : RenderResult
  | fallbackImage (src : String) : RenderResult
deriving DecidableEq

/-- `renderStampContent` (lines 168-239) as a pure function of the
loading flag and the current record. `Except.error` marks the unhandled
exception the builtin `atob` throws at line 172 on undecodable base64;
every other path returns an element. The `none` record case follows the
optional chaining: both mimetype tests are falsy and the fallback uses
the placeholder asset. -/
def renderStampContent (loading : Bool) (stampData : Option StampData) :
    Except String RenderResult :=
  if loading then Except.ok RenderResult.skeleton
  else
    match stampData with
    | some d =>
      if d.stamp.stamp_mimetype = "text/html" then
        match atob d.stamp.stamp_base64 with
        | some htmlContent =>
            Except.ok (RenderResult.htmlFrame (styleContent ++ htmlContent) sandboxTokens)
        | none => Except.error "InvalidCharacterError"
      else if d.stamp.stamp_mimetype.startsWith "image/" then
        Except.ok (RenderResult.image
          (convertBase64ToImage d.stamp.stamp_base64 d.stamp.stamp_mimetype))
      else
        Except.ok (RenderResult.fallbackImage
          (if d.stamp.stamp_url = "" then "AZlogo.webp" else d.stamp.stamp_url))
    | none => Except.ok (RenderResult.fallbackImage "AZlogo.webp")

/-! ### Dispenser sorting (lines 136-142)

The code sorts with the JS comparator key `parseFloat(x.btcrate.toString())`,
that is, ascending by `btcrate`; `Array.prototype.sort` is stable, so the
embedding is the stable ascending sort by rate. -/

/-- Ordering used by the sort: ascending unit rate. -/
def rateLE (a b : Dispenser) : Prop := a.btcrate ≤ b.btcrate

instance : DecidableRel rateLE :=
  fun a b => inferInstanceAs (Decidable (a.btcrate ≤ b.btcrate))

instance : IsTotal Dispenser rateLE :=
  ⟨fun a b => le_total a.btcrate b.btcrate⟩

instance : IsTrans Dispenser rateLE :=
  ⟨fun _ _ _ hab hbc => le_trans hab hbc⟩

/-- The stable ascending-by-rate sort applied at line 138. -/
def sortDispensers (l : List Dispenser) : List Dispenser :=
  List.insertionSort rateLE l

/-! ### The component state machine

All React state hooks of `StampCard` (lines 106-113), plus the list of
identifiers with an in-flight fetch (`pending`, possibly with
duplicates: the effect at lines 122-134 fires a fetch per identifier
change and never cancels one), the toast queue, and the last address
actually written to the clipboard. -/

/-- The mutable state of one `StampCard` instance. -/
structure ComponentState where
  stampId : String
  stampData : Option StampData
  isDispenserOpen : Bool
  loading : Bool
  error : Option String
  isFlipped : Bool
  dispensers : List Dispenser
  selectedDispenser : Option Dispenser
  pending : List String
  toasts : List Toast
  clipboard : Option String
deriving DecidableEq

/-- The click target passed to `handleClick` (lines 154-162): whether
`e.target` is an HTMLElement, and its tag name. -/
structure ClickTarget where
  isHTMLElement : Bool
  tagName : String
deriving DecidableEq

/-- The tag names `handleClick` treats as interactive (line 157). -/
def interactiveElements : List String :=
  ["BUTTON", "INPUT", "SELECT", "TEXTAREA", "A"]

/-- `handleClick` (lines 154-162): returns the new flip flag. A target
that is not an HTMLElement, or whose tag is interactive, leaves the
flag unchanged; any other click toggles it once. -/
def handleClick (t : ClickTarget) (isFlipped : Bool) : Bool :=
  if !t.isHTMLElement then isFlipped
  else if t.tagName ∈ interactiveElements then isFlipped
  else !isFlipped

/-- `handleCopyAddress` (lines 144-152): fires the clipboard write
(whose success `clipboardOk`, a promise the code neither awaits nor
checks, only determines the clipboard contents) and unconditionally
queues one `pepeToast`. -/
def handleCopyAddress (clipboardOk : Bool) (address : String)
    (s : ComponentState) : ComponentState :=
  { s with
    clipboard := if clipboardOk then some address else s.clipboard,
    toasts := s.toasts ++ [pepeToast] }

/-- The `[stampData]` effect (lines 136-142): when the freshly set
record has a non-empty dispenser list, replace the dispenser state with
its stable rate-sorted copy and select its head; otherwise do nothing,
leaving any previous dispensers and selection in place. -/
def applyStampDataEffect (s : ComponentState) : ComponentState :=
  match s.stampData with
  | some d =>
      if d.dispensers.isEmpty then s
      else
        let sorted := sortDispensers d.dispensers
        { s with dispensers := sorted, selectedDispenser := sorted.head? }
  | none => s

/-- Events the component reacts to. `resolve` delivers the settlement of
one in-flight fetch for `forId` (success with a record, or rejection);
the network chooses the delivery order, so any pending identifier may
resolve at any time. -/
inductive Event where
  | changeId (newId : String)
  | resolve (forId : String) (result : Except Unit StampData)
  | clickCard (t : ClickTarget)
  | buyArt
  | backButton
  | selectDispenser (d : Dispenser)
  | openDispenser
  | closeDispenser
  | copyAddress (clipboardOk : Bool) (address : String)

/-- One step of the component. `changeId` re-runs the fetch effect for a
genuinely new identifier without touching any other state; `resolve`
applies the handlers of lines 124-131 (`setStampData` then the
`[stampData]` effect on success, `setError` on failure, `setLoading
false` in `finally`) with no staleness check whatsoever; the remaining
events are the UI handlers. -/
def step (s : ComponentState) (e : Event) : ComponentState :=
  match e with
  | Event.changeId newId =>
      if newId = s.stampId then s
      else { s with stampId := newId, pending := s.pending ++ [newId] }
  | Event.resolve forId result =>
      if forId ∈ s.pending then
        let s1 := { s with pending := s.pending.erase forId }
        match result with
        | Except.ok d =>
            applyStampDataEffect { s1 with stampData := some d, loading := false }
        | Except.error _ =>
            { s1 with error := some "Failed to fetch stamp information.",
                      loading := false }
      else s
  | Event.clickCard t => { s with isFlipped := handleClick t s.isFlipped }
  | Event.buyArt => { s with isFlipped := true }
  | Event.backButton => { s with isFlipped := false }
  | Event.selectDispenser d =>
      if d ∈ s.dispensers then { s with selectedDispenser := some d } else s
  | Event.openDispenser => { s with isDispenserOpen := true }
  | Event.closeDispenser => { s with isDispenserOpen := false }
  | Event.copyAddress ok addr => handleCopyAddress ok addr s

/-- The state at mount for an initial identifier: the `useState`
initial values of lines 106-112, with the mount fetch already fired by
the effect. -/
def initState (id : String) : ComponentState :=
  { stampId := id, stampData := none, isDispenserOpen := false,
    loading := true, error := none, isFlipped := false, dispensers := [],
    selectedDispenser := none, pending := [id], toasts := [],
    clipboard := none }

/-- Run a sequence of events from a state. -/
def run (s : ComponentState) (es : List Event) : ComponentState :=
  es.foldl step s

/-- What the component renders (lines 164-166 and 242-403): the early
return shows only the error text when `error` is set; otherwise the card
is shown with `renderStampContent` as its preview. -/
inductive View where
  | errorView (msg : String) : View
  | cardView (content : Except String RenderResult) : View

instance : DecidableEq (Except String RenderResult) := fun a b =>
  match a, b with
  | Except.ok x, Except.ok y =>
      decidable_of_iff (x = y) (by simp)
  | Except.error x, Except.error y =>
      decidable_of_iff (x = y) (by simp)
  | Except.ok _, Except.error _ => isFalse (by simp)
  | Except.error _, Except.ok _ => isFalse (by simp)

instance : DecidableEq View := fun a b =>
  match a, b with
  | View.errorView x, View.errorView y =>
      decidable_of_iff (x = y) (by simp)
  | View.cardView x, View.cardView y =>
      decidable_of_iff (x = y) (by simp)
  | View.errorView _, View.cardView _ => isFalse (by simp)
  | View.cardView _, View.errorView _ => isFalse (by simp)

/-- The render function of the component. -/
def renderView (s : ComponentState) : View :=
  match s.error with
  | some msg => View.errorView msg
  | none => View.cardView (renderStampContent s.loading s.stampData)

/-! ### Concrete records used in witnesses and counterexamples -/

/-- A minimal png-typed stamp with a given counterparty id. -/
def stampPng (cpid : String) : StampInfo :=
  { cpid := cpid, stamp_mimetype := "image/png", stamp_base64 := "", stamp_url := "" }

/-- Record for identifier A, no dispensers. -/
def recA : StampData := { stamp := stampPng "A1", dispensers := [] }

/-- Record for identifier B, no dispensers. -/
def recB : StampData := { stamp := stampPng "B1", dispensers := [] }

/-- A dispenser with rate 2. -/
def dA : Dispenser :=
  { source := "addrA", btcrate := 2, give_remaining := 1, escrow_quantity := 10 }

/-- A dispenser with rate 1 (cheaper than dA). -/
def dB : Dispenser :=
  { source := "addrB", btcrate := 1, give_remaining := 2, escrow_quantity := 5 }

/-- Record for identifier A carrying one dispenser. -/
def recA1 : StampData := { stamp := stampPng "A1", dispensers := [dA] }

/-- Record for identifier B carrying no dispensers. -/
def recB0 : StampData := { stamp := stampPng "B1", dispensers := [] }

/-- An html-typed record with valid (empty) base64 payload. -/
def recHtml : StampData :=
  { stamp := { cpid := "H", stamp_mimetype := "text/html", stamp_base64 := "",
               stamp_url := "" },
    dispensers := [] }

/-- An html-typed record whose payload is not valid base64. -/
def recBadHtml : StampData :=
  { stamp := { cpid := "H2", stamp_mimetype := "text/html", stamp_base64 := "!",
               stamp_url := "" },
    dispensers := [] }

/-- A click on the plain card surface (a div). -/
def bodyClick : ClickTarget := { isHTMLElement := true, tagName := "DIV" }

/-! ### Helper lemmas -/

theorem applyStampDataEffect_projs (s : ComponentState) :
    (applyStampDataEffect s).loading = s.loading
    ∧ (applyStampDataEffect s).error = s.error
    ∧ (applyStampDataEffect s).stampId = s.stampId
    ∧ (applyStampDataEffect s).stampData = s.stampData
    ∧ (applyStampDataEffect s).pending = s.pending
    ∧ (applyStampDataEffect s).toasts = s.toasts
    ∧ (applyStampDataEffect s).isFlipped = s.isFlipped
    ∧ (applyStampDataEffect s).isDispenserOpen = s.isDispenserOpen := by
  cases hsd : s.stampData with
  | none => simp [applyStampDataEffect, hsd]
  | some d =>
      by_cases he : d.dispensers.isEmpty <;>
        simp [applyStampDataEffect, hsd, he]

theorem step_resolve_ok (s : ComponentState) (forId : String) (d : StampData)
    (hp : forId ∈ s.pending) :
    step s (Event.resolve forId (Except.ok d)) =
      applyStampDataEffect
        { s with pending := s.pending.erase forId, stampData := some d,
                 loading := false } := by
  simp [step, hp]

theorem step_resolve_ok_nonempty (s : ComponentState) (forId : String)
    (d : StampData) (hp : forId ∈ s.pending) (he : ¬ d.dispensers.isEmpty) :
    step s (Event.resolve forId (Except.ok d)) =
      { s with pending := s.pending.erase forId, stampData := some d,
               loading := false,
               dispensers := sortDispensers d.dispensers,
               selectedDispenser := (sortDispensers d.dispensers).head? } := by
  rw [step_resolve_ok s forId d hp]
  simp [applyStampDataEffect, he]

theorem step_resolve_ok_empty (s : ComponentState) (forId : String)
    (d : StampData) (hp : forId ∈ s.pending) (he : d.dispensers.isEmpty) :
    step s (Event.resolve forId (Except.ok d)) =
      { s with pending := s.pending.erase forId, stampData := some d,
               loading := false } := by
  rw [step_resolve_ok s forId d hp]
  simp [applyStampDataEffect, he]

theorem step_resolve_err (s : ComponentState) (forId : String) (u : Unit)
    (hp : forId ∈ s.pending) :
    step s (Event.resolve forId (Except.error u)) =
      { s with pending := s.pending.erase forId,
               error := some "Failed to fetch stamp information.",
               loading := false } := by
  simp [step, hp]

theorem loading_false_step (s : ComponentState) (e : Event)
    (h : s.loading = false) : (step s e).loading = false := by
  cases e with
  | changeId id2 => by_cases hc : id2 = s.stampId <;> simp [step, hc, h]
  | resolve forId r =>
      by_cases hp : forId ∈ s.pending
      · cases r with
        | ok d => rw [step_resolve_ok s forId d hp]
                  exact (applyStampDataEffect_projs _).1
        | error u => rw [step_resolve_err s forId u hp]
      · simp [step, hp, h]
  | clickCard t => exact h
  | buyArt => exact h
  | backButton => exact h
  | selectDispenser d => by_cases hd : d ∈ s.dispensers <;> simp [step, hd, h]
  | openDispenser => exact h
  | closeDispenser => exact h
  | copyAddress ok addr => exact h

theorem error_isSome_step (s : ComponentState) (e : Event)
    (h : s.error.isSome = true) : (step s e).error.isSome = true := by
  cases e with
  | changeId id2 => by_cases hc : id2 = s.stampId <;> simp [step, hc] <;> exact h
  | resolve forId r =>
      by_cases hp : forId ∈ s.pending
      · cases r with
        | ok d => rw [step_resolve_ok s forId d hp]
                  rw [(applyStampDataEffect_projs _).2.1]
                  exact h
        | error u => rw [step_resolve_err s forId u hp]; rfl
      · simp [step, hp, h]
  | clickCard t => exact h
  | buyArt => exact h
  | backButton => exact h
  | selectDispenser d => by_cases hd : d ∈ s.dispensers <;> simp [step, hd] <;> exact h
  | openDispenser => exact h
  | closeDispenser => exact h
  | copyAddress ok addr => exact h

theorem sorted_sortDispensers (l : List Dispenser) :
    List.Sorted rateLE (sortDispensers l) :=
  List.sorted_insertionSort rateLE l

theorem sortDispensers_head (l : List Dispenser) (h : l ≠ []) :
    ∃ hd, (sortDispensers l).head? = some hd
      ∧ hd ∈ sortDispensers l ∧ hd ∈ l
      ∧ ∀ x ∈ l, hd.btcrate ≤ x.btcrate := by
  have hne : sortDispensers l ≠ [] := by
    intro h0
    have h1 := congrArg List.length h0
    simp only [sortDispensers, List.length_insertionSort, List.length_nil] at h1
    exact h (List.length_eq_zero.mp h1)
  obtain ⟨hd, tl, hs⟩ := List.exists_cons_of_ne_nil hne
  have hmem : hd ∈ sortDispensers l := by rw [hs]; exact List.mem_cons_self hd tl
  refine ⟨hd, by rw [hs]; rfl, hmem, ?_, ?_⟩
  · exact (List.mem_insertionSort rateLE).mp hmem
  · intro x hx
    have hx2 : x ∈ sortDispensers l := (List.mem_insertionSort rateLE).mpr hx
    rw [hs] at hx2
    rcases List.mem_cons.mp hx2 with heq | hx3
    · rw [heq]
    · have hsorted := sorted_sortDispensers l
      rw [hs] at hsorted
      exact List.rel_of_sorted_cons hsorted x hx3

theorem filter_orderedInsert_pos (p : Dispenser → Bool) (a : Dispenser)
    (l : List Dispenser) (hpa : p a = true)
    (hskip : ∀ b, ¬ rateLE a b → p b = false) :
    (List.orderedInsert rateLE a l).filter p = a :: l.filter p := by
  induction l with
  | nil => simp [List.orderedInsert, hpa]
  | cons b l ih =>
      by_cases hr : rateLE a b
      · simp [List.orderedInsert, hr, List.filter_cons, hpa]
      · have hb : p b = false := hskip b hr
        simp [List.orderedInsert, hr, List.filter_cons, hb, ih]

theorem filter_orderedInsert_neg (p : Dispenser → Bool) (a : Dispenser)
    (l : List Dispenser) (hpa : p a = false) :
    (List.orderedInsert rateLE a l).filter p = l.filter p := by
  induction l with
  | nil => simp [List.orderedInsert, hpa]
  | cons b l ih =>
      by_cases hr : rateLE a b
      · simp [List.orderedInsert, hr, List.filter_cons, hpa]
      · simp [List.orderedInsert, hr, List.filter_cons, ih]

theorem filter_rate_sortDispensers (c : ℚ) (l : List Dispenser) :
    (sortDispensers l).filter (fun x => decide (x.btcrate = c)) =
      l.filter (fun x => decide (x.btcrate = c)) := by
  induction l with
  | nil => rfl
  | cons a l ih =>
      simp only [sortDispensers] at ih ⊢
      show (List.orderedInsert rateLE a (List.insertionSort rateLE l)).filter _ = _
      by_cases hc : a.btcrate = c
      · rw [filter_orderedInsert_pos _ a _ (by simp [hc]) ?_]
        · rw [ih]; simp [List.filter_cons, hc]
        · intro b hb
          have hlt : b.btcrate < a.btcrate := lt_of_not_le hb
          have : b.btcrate ≠ c := by rw [← hc]; exact ne_of_lt hlt
          simp [this]
      · rw [filter_orderedInsert_neg _ a _ (by simp [hc]), ih]
        simp [List.filter_cons, hc]

/-- The selection invariant maintained by the component: the selection
is either empty with an empty dispenser state, or a member of the
dispenser state. -/
def selInv (s : ComponentState) : Prop :=
  (s.selectedDispenser = none ∧ s.dispensers = []) ∨
    ∃ d, s.selectedDispenser = some d ∧ d ∈ s.dispensers

theorem selInv_applyStampDataEffect (s : ComponentState) (h : selInv s) :
    selInv (applyStampDataEffect s) := by
  cases hsd : s.stampData with
  | none => simpa [applyStampDataEffect, hsd] using h
  | some d =>
      by_cases he : d.dispensers.isEmpty
      · simpa [applyStampDataEffect, hsd, he] using h
      · have hne : d.dispensers ≠ [] := by
          intro h0; rw [h0] at he; exact he rfl
        obtain ⟨hd, hhead, hmemS, _, _⟩ := sortDispensers_head d.dispensers hne
        right
        refine ⟨hd, ?_, ?_⟩ <;> simp [applyStampDataEffect, hsd, he, hhead, hmemS]

theorem selInv_step (s : ComponentState) (e : Event) (h : selInv s) :
    selInv (step s e) := by
  cases e with
  | changeId id2 =>
      by_cases hc : id2 = s.stampId <;> simp [step, hc] <;> exact h
  | resolve forId r =>
      by_cases hp : forId ∈ s.pending
      · cases r with
        | ok d =>
            rw [step_resolve_ok s forId d hp]
            exact selInv_applyStampDataEffect _ h
        | error u => rw [step_resolve_err s forId u hp]; exact h
      · simp [step, hp]; exact h
  | clickCard t => exact h
  | buyArt => exact h
  | backButton => exact h
  | selectDispenser d =>
      by_cases hd : d ∈ s.dispensers
      · simp only [step, if_pos hd]
        exact Or.inr ⟨d, rfl, hd⟩
      · simp [step, hd]; exact h
  | openDispenser => exact h
  | closeDispenser => exact h
  | copyAddress ok addr => exact h

theorem selInv_run (s : ComponentState) (es : List Event) (h : selInv s) :
    selInv (run s es) := by
  induction es generalizing s with
  | nil => exact h
  | cons e es ih => exact ih (step s e) (selInv_step s e h)

theorem renderView_congr (s1 s2 : ComponentState) (he : s1.error = s2.error)
    (hl : s1.loading = s2.loading) (hd : s1.stampData = s2.stampData) :
    renderView s1 = renderView s2 := by
  unfold renderView
  rw [he, hl, hd]

/-! ### The claims -/

/-- C1: the claim says a fetch response originating from a superseded
identifier is never applied to the displayed state. The code (lines
122-134) neither cancels an in-flight fetch nor tags it with a
generation, so on the schedule mount with A, change to B, B resolves,
then the superseded A resolves late, the late response IS applied: the
displayed record is the one fetched for A while the current identifier
is B. This theorem evaluates the embedded component on that failing
schedule. -/
theorem C1_stale_response_is_applied :
    (run (initState "A")
        [Event.changeId "B", Event.resolve "B" (Except.ok recB),
         Event.resolve "A" (Except.ok recA)]).stampId = "B"
    ∧ (run (initState "A")
        [Event.changeId "B", Event.resolve "B" (Except.ok recB),
         Event.resolve "A" (Except.ok recA)]).stampData = some recA
    ∧ recA ≠ recB
    ∧ renderView (run (initState "A")
        [Event.changeId "B", Event.resolve "B" (Except.ok recB),
         Event.resolve "A" (Except.ok recA)]) =
        View.cardView (renderStampContent false (some recA)) := by
  refine ⟨by decide, by decide, by decide, rfl⟩

/-- C2 counterexample: the claim says text/html payloads render in an
isolated context with no host storage/cookie access and no top-level
navigation without a user gesture. At this concrete html record the
iframe is emitted with a sandbox token list that contains
allow-same-origin (host-origin storage and cookies) and
allow-top-navigation (gesture-free top navigation), so the claimed
isolation does not hold. -/
theorem C2_counterexample :
    renderStampContent false (some recHtml) =
      Except.ok (RenderResult.htmlFrame (styleContent ++ "") sandboxTokens)
    ∧ "allow-same-origin" ∈ sandboxTokens
    ∧ "allow-top-navigation" ∈ sandboxTokens := by
  refine ⟨rfl, by decide, by decide⟩

/-- C2 amended: every loaded record declared text/html whose payload
decodes is rendered inside a sandboxed iframe via srcDoc, but the
sandbox grants allow-scripts together with allow-same-origin and
allow-top-navigation (besides the user-activation variant), so the
embedded context shares the host origin and may navigate the top-level
page without a user gesture. -/
theorem C2_amended (d : StampData) (html : String)
    (hm : d.stamp.stamp_mimetype = "text/html")
    (hb : atob d.stamp.stamp_base64 = some html) :
    renderStampContent false (some d) =
      Except.ok (RenderResult.htmlFrame (styleContent ++ html) sandboxTokens)
    ∧ "allow-scripts" ∈ sandboxTokens
    ∧ "allow-same-origin" ∈ sandboxTokens
    ∧ "allow-top-navigation" ∈ sandboxTokens
    ∧ "allow-top-navigation-by-user-activation" ∈ sandboxTokens := by
  refine ⟨?_, by decide, by decide, by decide, by decide⟩
  simp [renderStampContent, hm, hb]

/-- C2 amended, witnessed at a concrete html record. -/
theorem C2_amended_witness :
    renderStampContent false (some recHtml) =
      Except.ok (RenderResult.htmlFrame (styleContent ++ "") sandboxTokens)
    ∧ "allow-scripts" ∈ sandboxTokens
    ∧ "allow-same-origin" ∈ sandboxTokens
    ∧ "allow-top-navigation" ∈ sandboxTokens
    ∧ "allow-top-navigation-by-user-activation" ∈ sandboxTokens :=
  C2_amended recHtml "" rfl rfl

/-- C3 counterexample: the claim says the selection is empty iff the
current record offer list is empty, and that a re-fetch never carries
the previous record offers into a different identifier state. On the
schedule record A1 (one offer) loads, the identifier changes to B, and
record B0 (zero offers) loads, the effect at lines 136-142 does nothing
for an empty list: the state still holds the offer dA of record A1 as
both dispenser list and selection, while the current record B0 has an
empty offer list. -/
theorem C3_counterexample :
    (run (initState "A")
        [Event.resolve "A" (Except.ok recA1), Event.changeId "B",
         Event.resolve "B" (Except.ok recB0)]).stampId = "B"
    ∧ (run (initState "A")
        [Event.resolve "A" (Except.ok recA1), Event.changeId "B",
         Event.resolve "B" (Except.ok recB0)]).stampData = some recB0
    ∧ recB0.dispensers = []
    ∧ (run (initState "A")
        [Event.resolve "A" (Except.ok recA1), Event.changeId "B",
         Event.resolve "B" (Except.ok recB0)]).selectedDispenser = some dA
    ∧ (run (initState "A")
        [Event.resolve "A" (Except.ok recA1), Event.changeId "B",
         Event.resolve "B" (Except.ok recB0)]).dispensers = [dA]
    ∧ dA ∈ recA1.dispensers := by
  refine ⟨by decide, by decide, rfl, by decide, by decide, by decide⟩

/-- C3 amended: in every reachable state the selection is empty iff the
dispenser state is empty, and otherwise is a member of it; a load whose
record has a non-empty offer list resets the dispenser state to the
sorted offers and the selection to their head, which has the lowest
rate; but a load whose record has an empty offer list leaves the
previous record offers and selection in place, so they can survive into
a different identifier state. -/
theorem C3_amended (id : String) (es : List Event) (s : ComponentState)
    (forId : String) (d : StampData) (hp : forId ∈ s.pending) :
    ((run (initState id) es).selectedDispenser = none ↔
        (run (initState id) es).dispensers = [])
    ∧ (∀ x, (run (initState id) es).selectedDispenser = some x →
        x ∈ (run (initState id) es).dispensers)
    ∧ (¬ d.dispensers.isEmpty →
        (step s (Event.resolve forId (Except.ok d))).dispensers =
            sortDispensers d.dispensers
        ∧ (step s (Event.resolve forId (Except.ok d))).selectedDispenser =
            (sortDispensers d.dispensers).head?
        ∧ ∀ hd, (sortDispensers d.dispensers).head? = some hd →
            ∀ x ∈ d.dispensers, hd.btcrate ≤ x.btcrate)
    ∧ (d.dispensers.isEmpty →
        (step s (Event.resolve forId (Except.ok d))).dispensers = s.dispensers
        ∧ (step s (Event.resolve forId (Except.ok d))).selectedDispenser =
            s.selectedDispenser) := by
  have hinv := selInv_run (initState id) es (Or.inl ⟨rfl, rfl⟩)
  refine ⟨?_, ?_, ?_, ?_⟩
  · rcases hinv with ⟨h1, h2⟩ | ⟨x, hx, hmem⟩
    · exact ⟨fun _ => h2, fun _ => h1⟩
    · constructor
      · intro h0; rw [hx] at h0; cases h0
      · intro h0; rw [h0] at hmem; cases hmem
  · intro x hx
    rcases hinv with ⟨h1, _⟩ | ⟨y, hy, hmem⟩
    · rw [h1] at hx; cases hx
    · rw [hy] at hx
      cases hx
      exact hmem
  · intro he
    rw [step_resolve_ok_nonempty s forId d hp he]
    refine ⟨rfl, rfl, ?_⟩
    intro hd hhd x hx
    have hne : d.dispensers ≠ [] := by
      intro h0; rw [h0] at he; exact he rfl
    obtain ⟨hd2, hhead2, _, _, hmin⟩ := sortDispensers_head d.dispensers hne
    rw [hhead2] at hhd
    cases hhd
    exact hmin x hx
  · intro he
    rw [step_resolve_ok_empty s forId d hp he]
    exact ⟨rfl, rfl⟩

/-- C3 amended, witnessed at the initial state. -/
theorem C3_amended_witness :
    (run (initState "A") []).selectedDispenser = none ↔
      (run (initState "A") []).dispensers = [] :=
  (C3_amended "A" [] (initState "A") "A" recA1 (by decide)).1

/-- C4: when a record with a non-empty offer list loads, the dispenser
state displayed is the stable ascending-by-rate sort of the fetched
offers: adjacent rates are non-decreasing, and for each rate value the
offers carrying it appear in their original fetch order (the filter at
any rate is unchanged by the sort). -/
theorem C4_offers_sorted_stable (s : ComponentState) (forId : String)
    (d : StampData) (hp : forId ∈ s.pending) (he : ¬ d.dispensers.isEmpty) :
    (step s (Event.resolve forId (Except.ok d))).dispensers =
        sortDispensers d.dispensers
    ∧ (∀ i, ∀ hi : i + 1 < (sortDispensers d.dispensers).length,
        ((sortDispensers d.dispensers).get ⟨i, Nat.lt_of_succ_lt hi⟩).btcrate ≤
          ((sortDispensers d.dispensers).get ⟨i + 1, hi⟩).btcrate)
    ∧ ∀ c : ℚ,
        (sortDispensers d.dispensers).filter (fun x => decide (x.btcrate = c)) =
          d.dispensers.filter (fun x => decide (x.btcrate = c)) := by
  refine ⟨?_, ?_, fun c => filter_rate_sortDispensers c d.dispensers⟩
  · rw [step_resolve_ok_nonempty s forId d hp he]
  · intro i hi
    exact (sorted_sortDispensers d.dispensers).rel_get_of_lt
      (Fin.mk_lt_mk.mpr (Nat.lt_succ_self i))

/-- C4, witnessed on a two-offer record with rates 2 and 1: the
displayed list is the rate-sorted one. -/
theorem C4_offers_sorted_stable_witness :
    (step (initState "A")
        (Event.resolve "A" (Except.ok (StampData.mk (stampPng "A1") [dA, dB])))).dispensers =
      [dB, dA] :=
  ((C4_offers_sorted_stable (initState "A") "A"
      (StampData.mk (stampPng "A1") [dA, dB]) (by decide) (by decide)).1).trans
    (by decide)

/-- C5 counterexample: the claim says a new identifier recovers from the
Failed state. On the schedule the fetch for A fails, the identifier
changes to B, and the fetch for B succeeds, yet the component still
renders only the error text: the error state set at line 128 is never
cleared, so the Failed view is permanent. -/
theorem C5_counterexample :
    (run (initState "A")
        [Event.resolve "A" (Except.error ()), Event.changeId "B",
         Event.resolve "B" (Except.ok recB)]).stampId = "B"
    ∧ (run (initState "A")
        [Event.resolve "A" (Except.error ()), Event.changeId "B",
         Event.resolve "B" (Except.ok recB)]).stampData = some recB
    ∧ renderView (run (initState "A")
        [Event.resolve "A" (Except.error ()), Event.changeId "B",
         Event.resolve "B" (Except.ok recB)]) =
        View.errorView "Failed to fetch stamp information." := by
  refine ⟨by decide, by decide, rfl⟩

/-- C5 amended: a transport failure moves the state from Loading to
Failed with the fixed reason; in that state only the error indicator is
rendered, suppressing preview and purchase UI; no retry is fired by the
failure itself; and the Failed state is permanent: no later event, a
new identifier and a later successful fetch included, ever clears the
error. -/
theorem C5_amended (s : ComponentState) (forId : String)
    (hp : forId ∈ s.pending) :
    (step s (Event.resolve forId (Except.error ()))).error =
        some "Failed to fetch stamp information."
    ∧ (step s (Event.resolve forId (Except.error ()))).loading = false
    ∧ renderView (step s (Event.resolve forId (Except.error ()))) =
        View.errorView "Failed to fetch stamp information."
    ∧ (step s (Event.resolve forId (Except.error ()))).pending =
        s.pending.erase forId
    ∧ ∀ s2 : ComponentState, ∀ e : Event, s2.error.isSome = true →
        (step s2 e).error.isSome = true := by
  rw [step_resolve_err s forId () hp]
  exact ⟨rfl, rfl, rfl, rfl, error_isSome_step⟩

/-- C5 amended, witnessed on a failing fetch from the initial state. -/
theorem C5_amended_witness :
    (step (initState "A") (Event.resolve "A" (Except.error ()))).error =
      some "Failed to fetch stamp information." :=
  (C5_amended (initState "A") "A" (by decide)).1

/-- C6 counterexample: the claim says a record whose payload cannot be
decoded as the declared type always takes the fallback path and never
becomes an unhandled fault. At this concrete record declared text/html
with the undecodable payload "!", the render evaluates the builtin
atob, which throws InvalidCharacterError: an unhandled render fault,
not the fallback path. -/
theorem C6_counterexample :
    atob "!" = none
    ∧ renderStampContent false (some recBadHtml) =
        Except.error "InvalidCharacterError" :=
  ⟨rfl, rfl⟩

/-- C6 amended: the rendering decision is a function of the declared
content type alone, not of the decode outcome. A missing record and any
unrecognized content type take the fallback path (remote URL when
non-empty, else the built-in placeholder) and stay Loaded; an
image-typed payload is embedded as a data URL without any decoding
step; but a text/html record whose payload fails base64 decoding raises
an unhandled decode fault instead of falling back. -/
theorem C6_amended (d : StampData) :
    renderStampContent false none =
        Except.ok (RenderResult.fallbackImage "AZlogo.webp")
    ∧ (d.stamp.stamp_mimetype ≠ "text/html" →
        d.stamp.stamp_mimetype.startsWith "image/" = false →
        renderStampContent false (some d) =
          Except.ok (RenderResult.fallbackImage
            (if d.stamp.stamp_url = "" then "AZlogo.webp"
             else d.stamp.stamp_url)))
    ∧ (d.stamp.stamp_mimetype = "text/html" →
        atob d.stamp.stamp_base64 = none →
        renderStampContent false (some d) =
          Except.error "InvalidCharacterError")
    ∧ (d.stamp.stamp_mimetype ≠ "text/html" →
        d.stamp.stamp_mimetype.startsWith "image/" = true →
        renderStampContent false (some d) =
          Except.ok (RenderResult.image
            (convertBase64ToImage d.stamp.stamp_base64
              d.stamp.stamp_mimetype))) := by
  refine ⟨rfl, ?_, ?_, ?_⟩ <;> intro h1 h2 <;>
    simp [renderStampContent, h1, h2]

/-- C6 amended, witnessed at the undecodable text/html record. -/
theorem C6_amended_witness :
    renderStampContent false (some recBadHtml) =
      Except.error "InvalidCharacterError" :=
  (C6_amended recBadHtml).2.2.1 rfl rfl

/-- C7 counterexample: the claim says the view state machine returns to
the initial state whenever the identifier changes. After a body click
flips the card to Back and the identifier changes to B, the flip flag
is still set: nothing in the code resets it. -/
theorem C7_counterexample :
    (run (initState "A")
        [Event.clickCard bodyClick, Event.changeId "B"]).stampId = "B"
    ∧ (run (initState "A")
        [Event.clickCard bodyClick, Event.changeId "B"]).isFlipped = true := by
  refine ⟨by decide, by decide⟩

/-- C7 amended: the view state machine starts at Front with the modal
closed and has no terminal state (a body click always toggles the
orientation), but an identifier change leaves both the flip orientation
and the modal flag untouched: the machine persists across identifier
changes instead of resetting. -/
theorem C7_amended (id id2 : String) (s : ComponentState) :
    (initState id).isFlipped = false
    ∧ (initState id).isDispenserOpen = false
    ∧ (step s (Event.changeId id2)).isFlipped = s.isFlipped
    ∧ (step s (Event.changeId id2)).isDispenserOpen = s.isDispenserOpen
    ∧ (step s (Event.clickCard bodyClick)).isFlipped = !s.isFlipped := by
  refine ⟨rfl, rfl, ?_, ?_, ?_⟩
  · by_cases hc : id2 = s.stampId <;> simp [step, hc]
  · by_cases hc : id2 = s.stampId <;> simp [step, hc]
  · exact (by decide : ∀ b, handleClick bodyClick b = !b) s.isFlipped

/-- C8: a click whose target is an HTMLElement with a tag outside the
interactive set (buttons, menus rendered as buttons, links, inputs,
selects, textareas) toggles the flip exactly once; a click whose target
tag is in the interactive set never changes the flip. -/
theorem C8_click_flip (s : ComponentState) (t : ClickTarget) :
    (t.isHTMLElement = true → t.tagName ∉ interactiveElements →
        (step s (Event.clickCard t)).isFlipped = !s.isFlipped)
    ∧ (t.tagName ∈ interactiveElements →
        (step s (Event.clickCard t)).isFlipped = s.isFlipped) := by
  constructor
  · intro h1 h2
    show handleClick t s.isFlipped = !s.isFlipped
    simp [handleClick, h1, h2]
  · intro h2
    show handleClick t s.isFlipped = s.isFlipped
    by_cases h1 : t.isHTMLElement <;> simp [handleClick, h1, h2]

/-- C8, witnessed on a body click from the initial state. -/
theorem C8_click_flip_witness :
    (step (initState "A") (Event.clickCard bodyClick)).isFlipped =
      !(initState "A").isFlipped :=
  (C8_click_flip (initState "A") bodyClick).1 rfl (by decide)

/-- C9: a copy always succeeds from the caller point of view: whatever
the clipboard write outcome, exactly one acknowledgement toast with the
fixed 3000 ms duration is queued, no error is set and the rendered view
is unchanged; the outcome does not depend on the clipboard result; and
two successive copies of the same text queue two independent
acknowledgements with no deduplication. -/
theorem C9_copy_always_acknowledges (s : ComponentState) (ok1 ok2 : Bool)
    (addr : String) :
    (step s (Event.copyAddress ok1 addr)).toasts = s.toasts ++ [pepeToast]
    ∧ (step s (Event.copyAddress ok1 addr)).error = s.error
    ∧ renderView (step s (Event.copyAddress ok1 addr)) = renderView s
    ∧ (step s (Event.copyAddress ok1 addr)).toasts =
        (step s (Event.copyAddress ok2 addr)).toasts
    ∧ (run s [Event.copyAddress ok1 addr, Event.copyAddress ok2 addr]).toasts =
        s.toasts ++ [pepeToast, pepeToast]
    ∧ pepeToast.duration = 3000
    ∧ pepeToast.isClosable = true := by
  refine ⟨rfl, rfl, rfl, rfl, ?_, rfl, rfl⟩
  show (s.toasts ++ [pepeToast]) ++ [pepeToast] =
    s.toasts ++ [pepeToast, pepeToast]
  simp

/-- C10: the loading placeholder is shown only before the first fetch
settles. The flag starts true, every fetch settlement (success or
failure) clears it, no event ever sets it back, an identifier change
alone does not change what is rendered (the previous record stays on
screen while the new fetch is in flight), and with the flag cleared the
render never yields the skeleton again. -/
theorem C10_loading_cleared_once (id id2 : String) (s : ComponentState)
    (sd : Option StampData) :
    (initState id).loading = true
    ∧ (∀ forId, ∀ r : Except Unit StampData, forId ∈ s.pending →
        (step s (Event.resolve forId r)).loading = false)
    ∧ (∀ e : Event, s.loading = false → (step s e).loading = false)
    ∧ renderView (step s (Event.changeId id2)) = renderView s
    ∧ renderStampContent false sd ≠ Except.ok RenderResult.skeleton := by
  refine ⟨rfl, ?_, fun e => loading_false_step s e, ?_, ?_⟩
  · intro forId r hp
    cases r with
    | ok d =>
        rw [step_resolve_ok s forId d hp]
        exact (applyStampDataEffect_projs _).1
    | error u => rw [step_resolve_err s forId u hp]
  · by_cases hc : id2 = s.stampId <;>
      apply renderView_congr <;> simp [step, hc]
  · cases sd with
    | none => simp [renderStampContent]
    | some d =>
        simp only [renderStampContent]
        by_cases h1 : d.stamp.stamp_mimetype = "text/html"
        · simp only [h1, if_true, if_false, Bool.false_eq_true]
          cases hatob : atob d.stamp.stamp_base64 <;> simp [hatob]
        · by_cases h2 : d.stamp.stamp_mimetype.startsWith "image/" <;>
            simp [h1, h2]

/-- C10, witnessed on a failing first fetch. -/
theorem C10_loading_cleared_once_witness :
    (step (initState "A") (Event.resolve "A" (Except.error ()))).loading =
      false :=
  (C10_loading_cleared_once "A" "B" (initState "A") none).2.1 "A"
    (Except.error ()) (by decide)

end StampCard
